import Mathlib

/-!
Shallow embedding of the multi-source data reconciliation pipeline of the
world-happiness-streamlit repository, and proofs about it.

Source files embedded:
  - `src/api_insert.py`        (API ingestion of country metadata)
  - `src/csv_insert.py`        (CSV ingestion: population, happiness, quality of life)
  - `src/webscraping_insert.py`(HTML scraping: Legatum prosperity, Worldometers GDP)
  - `src/process_data.py`      (joining the four tables into `countries_data`)

Modelling conventions:
  - DuckDB DOUBLE columns are modelled by `Rat` (the claims proved here are
    about parsing and control flow, not float rounding).
  - A DuckDB table is `Option (List row)`: `none` means the table does not
    exist, `some rows` means it exists with those rows.
  - Network fetches are modelled by an `Except`-valued outcome passed in as a
    parameter; fallible SQL statements (strict `CAST`) return `Except`.
-/

/-! ## Name canonicalization tables

Each ingestion path carries its own ad-hoc raw-name → canonical-name mapping,
written in the source either as an inline `if`/`elif` chain (api_insert.py), a
SQL `CASE` expression (csv_insert.py) or a pandas `replace` dictionary
(webscraping_insert.py). Each is embedded as a total function on `String`
returning the input unchanged when no mapping applies. -/

/-- Name adjustment applied inside `transform_data` (src/api_insert.py lines 54-58). -/
def api_canonicalize (c : String) : String :=
  if c = "United States" then "United States of America"
  else if c = "DR Congo" then "Democratic Republic of the Congo"
  else c

/-- The `CASE` expression of `ingest_population_csv` (src/csv_insert.py lines 68-76). -/
def population_canonicalize (c : String) : String :=
  if c = "United States" then "United States of America"
  else if c = "Congo" then "Republic of the Congo"
  else if c = "Sao Tome & Principe" then "São Tomé and Príncipe"
  else if c = "DR Congo" then "Democratic Republic of the Congo"
  else if c = "Côte d\x27Ivoire" then "Ivory Coast"
  else if c = "Czech Republic (Czechia)" then "Czechia"
  else c

/-- The `CASE` expression of `ingest_happiness_csv` (src/csv_insert.py lines 98-105). -/
def happiness_canonicalize (c : String) : String :=
  if c = "United States" then "United States of America"
  else if c = "Congo Brazzaville" then "Republic of the Congo"
  else if c = "Congo Kinshasa" then "Democratic Republic of the Congo"
  else if c = "North Cyprus" then "Cyprus"
  else if c = "Turkiye" then "Turkey"
  else c

/-- The `CASE` expression of `ingest_quality_of_life_csv` (src/csv_insert.py lines 126-134). -/
def qol_canonicalize (c : String) : String :=
  if c = "United States" then "United States of America"
  else if c = "Sao Tome And Principe" then "São Tomé and Príncipe"
  else if c = "Cape Verde" then "Cabo Verde"
  else if c = "Trinidad And Tobago" then "Trinidad and Tobago"
  else if c = "Czech Republic" then "Czechia"
  else if c = "Hong Kong (China)" then "Hong Kong"
  else c

/-- The `adjustments` replace-dictionary of `process_legatum_df`
(src/webscraping_insert.py lines 82-90). -/
def legatum_canonicalize (c : String) : String :=
  if c = "United States" then "United States of America"
  else if c = "Congo" then "Republic of the Congo"
  else if c = "Democratic Republic of Congo" then "Democratic Republic of the Congo"
  else if c = "Czech Republic" then "Czechia"
  else if c = "Côte d\x27Ivoire" then "Ivory Coast"
  else if c = "Swaziland" then "Eswatini"
  else c

/-- The `adjustments` replace-dictionary of `process_worldometers_df`
(src/webscraping_insert.py lines 135-142). -/
def worldometers_canonicalize (c : String) : String :=
  if c = "United States" then "United States of America"
  else if c = "Czech Republic (Czechia)" then "Czechia"
  else if c = "Sao Tome & Principe" then "São Tomé and Príncipe"
  else if c = "Côte d\x27Ivoire" then "Ivory Coast"
  else if c = "Congo" then "Republic of the Congo"
  else if c = "DR Congo" then "Democratic Republic of the Congo"
  else c

/-- Raw names mapped by `api_canonicalize`. -/
def api_mapped_names : List String :=
  ["United States", "DR Congo"]

/-- Raw names mapped by `population_canonicalize`. -/
def population_mapped_names : List String :=
  ["United States", "Congo", "Sao Tome & Principe", "DR Congo",
   "Côte d\x27Ivoire", "Czech Republic (Czechia)"]

/-- Raw names mapped by `happiness_canonicalize`. -/
def happiness_mapped_names : List String :=
  ["United States", "Congo Brazzaville", "Congo Kinshasa", "North Cyprus", "Turkiye"]

/-- Raw names mapped by `qol_canonicalize`. -/
def qol_mapped_names : List String :=
  ["United States", "Sao Tome And Principe", "Cape Verde",
   "Trinidad And Tobago", "Czech Republic", "Hong Kong (China)"]

/-- Raw names mapped by `legatum_canonicalize`. -/
def legatum_mapped_names : List String :=
  ["United States", "Congo", "Democratic Republic of Congo",
   "Czech Republic", "Côte d\x27Ivoire", "Swaziland"]

/-- Raw names mapped by `worldometers_canonicalize`. -/
def worldometers_mapped_names : List String :=
  ["United States", "Czech Republic (Czechia)", "Sao Tome & Principe",
   "Côte d\x27Ivoire", "Congo", "DR Congo"]

/-! ## API ingestion (src/api_insert.py)

The JSON country objects returned by the REST API are modelled field by field:
every field `transform_data` accesses through `dict.get` with a default is an
`Option`, mirroring the fact that the field may be absent. -/

/-- The nested `name` object of a country JSON record (`name.common`). -/
structure NameJson where
  common : Option String
deriving Repr, DecidableEq

/-- The nested `flags` object of a country JSON record (`flags.png`). -/
structure FlagsJson where
  png : Option String
deriving Repr, DecidableEq

/-- One value of the `currencies` dictionary of a country JSON record. -/
structure CurrencyJson where
  name : Option String
  symbol : Option String
deriving Repr, DecidableEq

/-- A raw country object from the REST API response. The `currencies` and
`languages` dictionaries are modelled by the lists of their values, in
iteration order, which is all `transform_data` reads. -/
structure CountryJson where
  name : Option NameJson
  region : Option String
  subregion : Option String
  currencies : Option (List CurrencyJson)
  languages : Option (List String)
  flags : Option FlagsJson
deriving Repr, DecidableEq

/-- A row of the `countries_metadata` DuckDB table. -/
structure MetaRow where
  Country : String
  Region : String
  Subregion : String
  Currencies : String
  Languages : String
  Flag_URL : Option String
deriving Repr, DecidableEq

/-- The per-currency display string built inside `transform_data`
(src/api_insert.py line 64): `name (symbol)` with defaults. -/
def currency_display (cur : CurrencyJson) : String :=
  cur.name.getD "Unknown" ++ " (" ++ cur.symbol.getD "" ++ ")"

/-- The body of the `for country in data` loop of `transform_data`
(src/api_insert.py lines 52-71). -/
def transform_country (c : CountryJson) : MetaRow :=
  { Country := api_canonicalize ((c.name.bind NameJson.common).getD "Unknown")
    Region := c.region.getD "Unknown"
    Subregion := c.subregion.getD "Unknown"
    Currencies := String.intercalate ", " ((c.currencies.getD []).map currency_display)
    Languages := String.intercalate ", " (c.languages.getD [])
    Flag_URL := c.flags.bind FlagsJson.png }

/-- `transform_data` (src/api_insert.py lines 42-72): one output tuple appended
per input element. -/
def transform_data (data : List CountryJson) : List MetaRow :=
  data.map transform_country

/-- State of the DuckDB file as seen by api_insert.py: just the
`countries_metadata` table (`none` = table absent). -/
structure ApiDbState where
  countries_metadata : Option (List MetaRow)
deriving Repr, DecidableEq

/-- `create_db_and_table_if_not_exists` (src/api_insert.py lines 8-27):
drops `countries_metadata` if it exists, then creates it empty. -/
def create_db_and_table_if_not_exists (_s : ApiDbState) : ApiDbState :=
  { countries_metadata := some [] }

/-- `fetch_countries_data` (src/api_insert.py lines 29-40): the HTTP outcome is
passed in as an `Except` (error = network failure or non-2xx status); on error
the function returns the empty list. -/
def fetch_countries_data (response : Except String (List CountryJson)) :
    List CountryJson :=
  match response with
  | .ok data => data
  | .error _ => []

/-- `insert_into_duckdb` (src/api_insert.py lines 74-88): returns without
touching the table when `data` is empty, otherwise appends all rows. -/
def insert_into_duckdb (data : List MetaRow) (s : ApiDbState) : ApiDbState :=
  if data.isEmpty then s
  else { countries_metadata := s.countries_metadata.map (fun rows => rows ++ data) }

/-- `main` of src/api_insert.py (lines 90-104): recreate the table, fetch,
abort if the fetch yielded no data, otherwise transform and insert. -/
def api_main (response : Except String (List CountryJson)) (s : ApiDbState) :
    ApiDbState :=
  let s1 := create_db_and_table_if_not_exists s
  let raw := fetch_countries_data response
  if raw.isEmpty then s1
  else insert_into_duckdb (transform_data raw) s1

/-! ## Numeric string parsing

`pd.to_numeric(..., errors=coerce)` (webscraping_insert.py) and the DuckDB
`CAST(x AS BIGINT/INTEGER/DOUBLE)` expressions (csv_insert.py) both parse
decimal numerals from strings; the pandas version yields null (`none`) on a
malformed string while the DuckDB `CAST` raises a conversion error
(`Except.error`), aborting the whole `INSERT ... SELECT` statement. Plain
decimal numerals with optional sign and fraction are modelled; scientific
notation is not needed by any claim. -/

/-- The numeric value of a digit list (0 when empty). -/
def digitsVal (cs : List Char) : Nat :=
  cs.foldl (fun n c => 10 * n + (c.toNat - 48)) 0

/-- Parses a nonempty all-digit list to a natural number. -/
def digitsToNat? (cs : List Char) : Option Nat :=
  if cs.isEmpty then none
  else if cs.all Char.isDigit then some (digitsVal cs)
  else none

/-- Parses an unsigned decimal numeral with at most one dot into
(scaled mantissa, number of fractional digits): the value is
mantissa / 10 ^ fracDigits. -/
def parseUnsignedParts (cs : List Char) : Option (Nat × Nat) :=
  match cs.splitOn '.' with
  | [intPart] => (digitsToNat? intPart).map (fun n => (n, 0))
  | [intPart, fracPart] =>
    if intPart.isEmpty && fracPart.isEmpty then none
    else if intPart.all Char.isDigit && fracPart.all Char.isDigit then
      some (digitsVal intPart * 10 ^ fracPart.length + digitsVal fracPart, fracPart.length)
    else none
  | _ => none

/-- Parses a decimal numeral with optional leading sign, as signed scaled
mantissa and fractional digit count. -/
def parseSignedParts : List Char → Option (Int × Nat)
  | '-' :: rest => (parseUnsignedParts rest).map (fun mk => (-(mk.1 : Int), mk.2))
  | '+' :: rest => (parseUnsignedParts rest).map (fun mk => ((mk.1 : Int), mk.2))
  | cs => (parseUnsignedParts cs).map (fun mk => ((mk.1 : Int), mk.2))

/-- The rational value of a parsed (mantissa, fracDigits) pair. -/
def partsVal (mk : Int × Nat) : Rat :=
  (mk.1 : Rat) / (10 : Rat) ^ mk.2

/-- Parses an integer numeral with optional leading sign. -/
def parseSignedInt : List Char → Option Int
  | '-' :: rest => (digitsToNat? rest).map (fun n => -(n : Int))
  | '+' :: rest => (digitsToNat? rest).map (fun n => (n : Int))
  | cs => (digitsToNat? cs).map (fun n => (n : Int))

/-- `pd.to_numeric(s, errors=coerce)`: a malformed string becomes null
(`none`), never an error. -/
def pd_to_numeric_coerce (s : String) : Option Rat :=
  (parseSignedParts s.data).map partsVal

/-- pandas `Series.str.replace(charclass, empty, regex=True)` for a character
class such as `[$,]` or `[%,]`: removes every occurrence of the listed
characters. -/
def strip_chars (bad : List Char) (s : String) : String :=
  ⟨s.data.filter (fun c => !bad.contains c)⟩

/-- SQL `REPLACE(s, comma, empty)` as used in `ingest_population_csv`:
removes every comma. -/
def sql_replace_comma_empty (s : String) : String :=
  ⟨s.data.filter (fun c => !(c == ','))⟩

/-- DuckDB `CAST(s AS BIGINT)`: strict — a malformed numeral raises a
conversion error that aborts the enclosing statement. -/
def duckdb_cast_bigint (s : String) : Except String Int :=
  match parseSignedInt s.data with
  | some n => .ok n
  | none => .error ("Conversion Error: Could not convert string " ++ s ++ " to INT64")

/-- DuckDB `CAST(s AS INTEGER)`: strict, like `duckdb_cast_bigint`. -/
def duckdb_cast_integer (s : String) : Except String Int :=
  match parseSignedInt s.data with
  | some n => .ok n
  | none => .error ("Conversion Error: Could not convert string " ++ s ++ " to INT32")

/-- DuckDB `CAST(s AS DOUBLE)`: strict — a malformed numeral raises. -/
def duckdb_cast_double (s : String) : Except String Rat :=
  match parseSignedParts s.data with
  | some mk => .ok (partsVal mk)
  | none => .error ("Conversion Error: Could not convert string " ++ s ++ " to DOUBLE")

/-! ## CSV ingestion (src/csv_insert.py)

Each `INSERT INTO ... SELECT ... FROM read_csv_auto(...)` statement is
modelled row by row; the source CSV cells are strings and the `CAST`
expressions are the strict DuckDB casts above, so one malformed cell aborts
the whole statement (`Except.error`), exactly as an uncaught DuckDB conversion
error would kill the Python process. -/

/-- A raw row of world_population_data.csv, fields as strings. -/
structure PopRawRow where
  Country : String
  Population2024 : String
  NetChange : String
  Density : String
  LandArea : String
  FertRate : String
  MedAge : String
deriving Repr, DecidableEq

/-- A row of the `world_population` table. -/
structure PopRow where
  Country : String
  Population : Int
  PopChange : Int
  DensityKm2 : Rat
  LandAreaKm2 : Rat
  FertRate : Rat
  MedAge : Int
deriving Repr, DecidableEq

/-- A raw row of world_happiness.csv. -/
structure HapRawRow where
  Country : String
  Year : String
  Index : String
deriving Repr, DecidableEq

/-- A row of the `world_happiness` table. -/
structure HapRow where
  Country : String
  Year : Int
  Happiness : Rat
deriving Repr, DecidableEq

/-- A raw row of quality_of_life.csv (selected columns only). -/
structure QolRawRow where
  country : String
  PurchasingPowerValue : String
  ClimateValue : String
  CostofLivingValue : String
  TrafficCommuteTimeValue : String
  PollutionValue : String
deriving Repr, DecidableEq

/-- A row of the `quality_of_life` table. -/
structure QolRow where
  Country : String
  PurchasingPower : Rat
  Climate : Rat
  CostofLiving : Rat
  TrafficCommuteTime : Rat
  Pollution : Rat
deriving Repr, DecidableEq

/-- The per-row SELECT list of `ingest_population_csv`
(src/csv_insert.py lines 65-83). -/
def ingest_population_row (r : PopRawRow) : Except String PopRow := do
  let pop ← duckdb_cast_bigint (sql_replace_comma_empty r.Population2024)
  let change ← duckdb_cast_bigint (sql_replace_comma_empty r.NetChange)
  let density ← duckdb_cast_double (sql_replace_comma_empty r.Density)
  let land ← duckdb_cast_double (sql_replace_comma_empty r.LandArea)
  let fert ← duckdb_cast_double r.FertRate
  let age ← duckdb_cast_integer r.MedAge
  pure ⟨population_canonicalize r.Country, pop, change, density, land, fert, age⟩

/-- `ingest_population_csv` (src/csv_insert.py lines 58-86): all rows in
order, or the first conversion error (which aborts the whole statement). -/
def ingest_population_csv : List PopRawRow → Except String (List PopRow)
  | [] => .ok []
  | r :: rs => do
    let hd ← ingest_population_row r
    let tl ← ingest_population_csv rs
    pure (hd :: tl)

/-- The per-row SELECT list of `ingest_happiness_csv`
(src/csv_insert.py lines 95-109). -/
def ingest_happiness_row (r : HapRawRow) : Except String HapRow := do
  let y ← duckdb_cast_integer r.Year
  let idx ← duckdb_cast_double r.Index
  pure ⟨happiness_canonicalize r.Country, y, idx⟩

/-- `ingest_happiness_csv` (src/csv_insert.py lines 88-111): all rows in
order, or the first conversion error. -/
def ingest_happiness_csv : List HapRawRow → Except String (List HapRow)
  | [] => .ok []
  | r :: rs => do
    let hd ← ingest_happiness_row r
    let tl ← ingest_happiness_csv rs
    pure (hd :: tl)

/-- Number of rows of the `world_happiness` table with a given
(canonical Country, Year) key. -/
def hapKeyCount (rows : List HapRow) (c : String) (y : Int) : Nat :=
  (rows.filter (fun r => r.Country == c && r.Year == y)).length

instance {ε α : Type} [DecidableEq ε] [DecidableEq α] : DecidableEq (Except ε α) := fun x y =>
  match x, y with
  | .ok a, .ok b =>
    match decEq a b with
    | isTrue h => isTrue (h ▸ rfl)
    | isFalse h => isFalse (fun he => h (Except.ok.inj he))
  | .ok _, .error _ => isFalse (fun he => Except.noConfusion he)
  | .error _, .ok _ => isFalse (fun he => Except.noConfusion he)
  | .error e, .error f =>
    match decEq e f with
    | isTrue h => isTrue (h ▸ rfl)
    | isFalse h => isFalse (fun he => h (Except.error.inj he))

/-- The per-row SELECT list of `ingest_quality_of_life_csv`
(src/csv_insert.py lines 123-141). -/
def ingest_quality_of_life_row (r : QolRawRow) : Except String QolRow := do
  let pp ← duckdb_cast_double r.PurchasingPowerValue
  let cl ← duckdb_cast_double r.ClimateValue
  let col ← duckdb_cast_double r.CostofLivingValue
  let tct ← duckdb_cast_double r.TrafficCommuteTimeValue
  let pol ← duckdb_cast_double r.PollutionValue
  pure ⟨qol_canonicalize r.country, pp, cl, col, tct, pol⟩

/-- `ingest_quality_of_life_csv` (src/csv_insert.py lines 113-141): all rows
in order, or the first conversion error. -/
def ingest_quality_of_life_csv : List QolRawRow → Except String (List QolRow)
  | [] => .ok []
  | r :: rs => do
    let hd ← ingest_quality_of_life_row r
    let tl ← ingest_quality_of_life_csv rs
    pure (hd :: tl)

/-- State of the three destination tables of csv_insert.py
(`none` = table absent). -/
structure CsvDbState where
  world_population : Option (List PopRow)
  world_happiness : Option (List HapRow)
  quality_of_life : Option (List QolRow)
deriving Repr, DecidableEq

/-- `recreate_tables` (src/csv_insert.py lines 11-56): drops all three tables
and recreates them empty. -/
def recreate_tables (_s : CsvDbState) : CsvDbState :=
  { world_population := some [], world_happiness := some [], quality_of_life := some [] }

/-- The local file system seen by csv_insert.py `main`: for each of the three
required CSVs, `none` when the file is absent, `some rows` when present. -/
structure CsvFs where
  world_population_data_csv : Option (List PopRawRow)
  world_happiness_csv : Option (List HapRawRow)
  quality_of_life_csv : Option (List QolRawRow)
deriving Repr, DecidableEq

/-- `main` of src/csv_insert.py (lines 143-170): three existence checks (each
`sys.exit(1)` leaves the database untouched), then `recreate_tables`, then the
three ingests in order; an uncaught conversion error stops the run with the
tables written so far. -/
def csv_main (fs : CsvFs) (s : CsvDbState) : CsvDbState :=
  match fs.world_population_data_csv with
  | none => s
  | some popRows =>
    match fs.world_happiness_csv with
    | none => s
    | some hapRows =>
      match fs.quality_of_life_csv with
      | none => s
      | some qolRows =>
        let s1 := recreate_tables s
        match ingest_population_csv popRows with
        | .error _ => s1
        | .ok popData =>
          let s2 := { s1 with world_population := some popData }
          match ingest_happiness_csv hapRows with
          | .error _ => s2
          | .ok hapData =>
            let s3 := { s2 with world_happiness := some hapData }
            match ingest_quality_of_life_csv qolRows with
            | .error _ => s3
            | .ok qolData => { s3 with quality_of_life := some qolData }

/-! ## Web scraping (src/webscraping_insert.py)

An HTML `<table>` element is modelled by the two attributes the extractors
read: its flattened text content (`get_text`) and its `id` attribute. The
extractors receive the list of candidate tables in document order — for
`extract_legatum_table` this is the `find_all` result that the Python code
binds to its local `tables`, for `extract_worldometers_table` the tables of
the whole page (`soup.find`). -/

/-- An HTML table as seen by the extractors: text content and id attribute. -/
structure HtmlTable where
  text : String
  idAttr : Option String
deriving Repr, DecidableEq

/-- Whether `needle` occurs as a prefix of `hay`. -/
def charsHavePrefix : List Char → List Char → Bool
  | _, [] => true
  | [], _ :: _ => false
  | h :: t, n :: ns => h == n && charsHavePrefix t ns

/-- Whether `needle` occurs as a contiguous run inside `hay`. -/
def charsContain (hay needle : List Char) : Bool :=
  match hay with
  | [] => needle.isEmpty
  | _ :: t => charsHavePrefix hay needle || charsContain t needle

/-- Python `needle in hay` substring test. -/
def strContains (hay needle : String) : Bool :=
  charsContain hay.data needle.data

/-- The keyword test of `extract_legatum_table`: whether the keyword `Rank`
occurs in the table text (src/webscraping_insert.py line 60). -/
def hasRank (t : HtmlTable) : Bool :=
  strContains t.text "Rank"

/-- `extract_legatum_table` (src/webscraping_insert.py lines 49-66): `None`
when there are no candidate tables; otherwise the first table containing the
keyword `Rank`, defaulting to the first table when none matches. -/
def extract_legatum_table (tables : List HtmlTable) : Option HtmlTable :=
  if tables.isEmpty then none
  else
    match tables.find? hasRank with
    | some t => some t
    | none => tables.head?

/-- `extract_worldometers_table` (src/webscraping_insert.py lines 109-120):
the first table with id `example2`, else the first table on the page, else
`None`. -/
def extract_worldometers_table (tables : List HtmlTable) : Option HtmlTable :=
  match tables.find? (fun t => t.idAttr == some "example2") with
  | some t => some t
  | none => tables.head?

/-- A raw row of the scraped Worldometers GDP table, after the column filter
and rename of `process_worldometers_df` (required columns as strings). -/
structure GdpRawRow where
  Country : String
  GDP : String
  GDPgrowth : String
  GDPperCapita : String
deriving Repr, DecidableEq

/-- A processed row of the `gdp_table` table: numeric fields are nullable
(`to_numeric` with coerce). -/
structure GdpRow where
  Country : String
  GDP : Option Rat
  GDPgrowth : Option Rat
  GDPperCapita : Option Rat
deriving Repr, DecidableEq

/-- The per-row numeric cleaning of `process_worldometers_df`
(src/webscraping_insert.py lines 143-149): strip `$`/`,` (or `%`/`,` for the
growth column), then `pd.to_numeric(..., errors=coerce)`. -/
def process_worldometers_row (r : GdpRawRow) : GdpRow :=
  { Country := worldometers_canonicalize r.Country
    GDP := pd_to_numeric_coerce (strip_chars [Char.ofNat 36, Char.ofNat 44] r.GDP)
    GDPgrowth := pd_to_numeric_coerce (strip_chars [Char.ofNat 37, Char.ofNat 44] r.GDPgrowth)
    GDPperCapita := pd_to_numeric_coerce (strip_chars [Char.ofNat 36, Char.ofNat 44] r.GDPperCapita) }

/-- `process_worldometers_df` restricted to what the claims use: the numeric
cleaning applied to every row of the already-column-filtered frame. -/
def process_worldometers_df (rows : List GdpRawRow) : List GdpRow :=
  rows.map process_worldometers_row

/-- The Country-column adjustment of `process_legatum_df`
(src/webscraping_insert.py lines 80-90): pandas `Series.replace` applied to
the column values. -/
def process_legatum_country_column (countries : List String) : List String :=
  countries.map legatum_canonicalize

/-- One observable event of the webscraping `main`: attempting a scrape, or
ingesting a processed frame into a named DuckDB table. -/
inductive WsEvent (Df : Type) where
  | scrapeLegatum : WsEvent Df
  | scrapeGdp : WsEvent Df
  | ingest (tableName : String) (df : Df) : WsEvent Df
deriving DecidableEq

/-- `main` of src/webscraping_insert.py (lines 169-190) as the trace of events
it performs, given the outcome of each scrape (`none` = that source failed at
any stage): scrape Legatum, ingest it if it succeeded, then scrape
Worldometers GDP, ingest it if it succeeded. -/
def webscraping_main {Df : Type} (legatumResult gdpResult : Option Df) :
    List (WsEvent Df) :=
  (WsEvent.scrapeLegatum ::
    (match legatumResult with
     | some df => [WsEvent.ingest "legatum_prosperity" df]
     | none => [])) ++
  (WsEvent.scrapeGdp ::
    (match gdpResult with
     | some df => [WsEvent.ingest "gdp_table" df]
     | none => []))

/-- The ingest events of a trace that target a given table. -/
def ingest_events {Df : Type} (tableName : String) (trace : List (WsEvent Df)) :
    List (WsEvent Df) :=
  trace.filter (fun e =>
    match e with
    | WsEvent.ingest n _ => n == tableName
    | _ => false)

/-! ## Joining (src/process_data.py)

A row of any of the four source tables is a country name plus a payload of
the remaining columns; `JOIN ... USING (Country)` pairs every row of the left
table with every row of the right table that has the same country. -/

/-- A row of a DuckDB table participating in the join: the `Country` column
plus the remaining columns as an opaque payload. -/
structure JoinRow (α : Type) where
  country : String
  payload : α
deriving Repr, DecidableEq

/-- SQL `INNER JOIN ... USING (Country)`: every pair of rows of the two
tables agreeing on the country, in left-table order. -/
def innerJoinUsing {α β : Type} : List (JoinRow α) → List (JoinRow β) → List (JoinRow (α × β))
  | [], _ => []
  | r :: rs, t =>
    ((t.filter (fun s => s.country == r.country)).map
      (fun s => { country := r.country, payload := (r.payload, s.payload) })) ++
    innerJoinUsing rs t

/-- The query of `create_countries_data_table` (src/process_data.py lines
18-25): `countries_metadata` inner-joined with `legatum_prosperity`,
`gdp_table` and `world_population` using the country column. -/
def create_countries_data_table {α β γ δ : Type}
    (countries_metadata : List (JoinRow α)) (legatum_prosperity : List (JoinRow β))
    (gdp_table : List (JoinRow γ)) (world_population : List (JoinRow δ)) :
    List (JoinRow (((α × β) × γ) × δ)) :=
  innerJoinUsing (innerJoinUsing (innerJoinUsing countries_metadata legatum_prosperity)
    gdp_table) world_population

/-- Number of rows of a table whose country is `c`. -/
def countryCount {α : Type} (t : List (JoinRow α)) (c : String) : Nat :=
  (t.filter (fun r => r.country == c)).length

/-! ## Helper lemmas -/

theorem countryCount_nil {α : Type} (c : String) :
    countryCount ([] : List (JoinRow α)) c = 0 := rfl

theorem countryCount_append {α : Type} (x y : List (JoinRow α)) (c : String) :
    countryCount (x ++ y) c = countryCount x c + countryCount y c := by
  simp [countryCount, List.filter_append]

theorem countryCount_cons {α : Type} (r : JoinRow α) (rs : List (JoinRow α)) (c : String) :
    countryCount (r :: rs) c = (if r.country = c then 1 else 0) + countryCount rs c := by
  simp only [countryCount, List.filter_cons]
  by_cases h : r.country = c
  · simp [h, Nat.add_comm]
  · simp [h]

theorem countryCount_join_block {α β : Type} (r : JoinRow α) (b : List (JoinRow β)) (c : String) :
    countryCount ((b.filter (fun s => s.country == r.country)).map
      (fun s => ({ country := r.country, payload := (r.payload, s.payload) } : JoinRow (α × β)))) c =
    if r.country = c then countryCount b c else 0 := by
  unfold countryCount
  rw [List.filter_map]
  by_cases h : r.country = c
  · subst h
    simp [Function.comp]
  · simp [Function.comp, h]

/-- Core multiplicity law of the SQL inner join: the number of rows for a
country in the join is the product of its numbers of rows in the operands. -/
theorem countryCount_innerJoinUsing {α β : Type}
    (a : List (JoinRow α)) (b : List (JoinRow β)) (c : String) :
    countryCount (innerJoinUsing a b) c = countryCount a c * countryCount b c := by
  induction a with
  | nil => simp [innerJoinUsing, countryCount_nil]
  | cons r rs ih =>
    show countryCount (_ ++ innerJoinUsing rs b) c = _
    rw [countryCount_append, countryCount_cons, countryCount_join_block, ih]
    by_cases h : r.country = c
    · simp only [h, if_pos]
      ring
    · simp only [h, if_neg, not_false_iff]
      ring

/-! ## Claims -/

/-- C4: join correctness of `create_countries_data_table`. Under the
precondition that each source table has at most one row per country: a country
absent from any one of the four joined tables does not appear in
`countries_data`, and a country present in all four appears exactly once. -/
theorem C4_join_correctness {α β γ δ : Type}
    (countries_metadata : List (JoinRow α)) (legatum_prosperity : List (JoinRow β))
    (gdp_table : List (JoinRow γ)) (world_population : List (JoinRow δ)) (c : String)
    (hm : countryCount countries_metadata c ≤ 1)
    (hl : countryCount legatum_prosperity c ≤ 1)
    (hg : countryCount gdp_table c ≤ 1)
    (hp : countryCount world_population c ≤ 1) :
    ((countryCount countries_metadata c = 0 ∨ countryCount legatum_prosperity c = 0 ∨
      countryCount gdp_table c = 0 ∨ countryCount world_population c = 0) →
      countryCount (create_countries_data_table countries_metadata legatum_prosperity
        gdp_table world_population) c = 0) ∧
    ((1 ≤ countryCount countries_metadata c ∧ 1 ≤ countryCount legatum_prosperity c ∧
      1 ≤ countryCount gdp_table c ∧ 1 ≤ countryCount world_population c) →
      countryCount (create_countries_data_table countries_metadata legatum_prosperity
        gdp_table world_population) c = 1) := by
  have hj : countryCount (create_countries_data_table countries_metadata legatum_prosperity
      gdp_table world_population) c =
      countryCount countries_metadata c * countryCount legatum_prosperity c *
      countryCount gdp_table c * countryCount world_population c := by
    simp [create_countries_data_table, countryCount_innerJoinUsing]
  constructor
  · intro h
    rw [hj]
    rcases h with h | h | h | h <;> simp [h]
  · rintro ⟨h1, h2, h3, h4⟩
    rw [hj, le_antisymm hm h1, le_antisymm hl h2, le_antisymm hg h3, le_antisymm hp h4]

/-- Witness for C4 at concrete one-row tables: a country missing from
`gdp_table` is dropped, and a country present once in all four tables appears
exactly once. -/
theorem C4_join_correctness_witness :
    countryCount (create_countries_data_table
      [JoinRow.mk "France" 0] [JoinRow.mk "France" 0]
      ([] : List (JoinRow Nat)) [JoinRow.mk "France" 0]) "France" = 0 ∧
    countryCount (create_countries_data_table
      [JoinRow.mk "France" 0] [JoinRow.mk "France" 0]
      [JoinRow.mk "France" 0] [JoinRow.mk "France" 0]) "France" = 1 :=
  ⟨(C4_join_correctness [JoinRow.mk "France" 0] [JoinRow.mk "France" 0]
      ([] : List (JoinRow Nat)) [JoinRow.mk "France" 0] "France"
      (by decide) (by decide) (by decide) (by decide)).1 (by decide),
   (C4_join_correctness [JoinRow.mk "France" 0] [JoinRow.mk "France" 0]
      [JoinRow.mk "France" 0] [JoinRow.mk "France" 0] "France"
      (by decide) (by decide) (by decide) (by decide)).2
      ⟨by decide, by decide, by decide, by decide⟩⟩

/-- C5: every raw name in the six per-source canonicalization tables maps to
its documented canonical name; in particular raw `DR Congo` from the API
metadata source and raw `Congo Kinshasa` from the happiness source both map to
`Democratic Republic of the Congo`. -/
theorem C5_canonical_mappings :
    (api_canonicalize "United States" = "United States of America" ∧
     api_canonicalize "DR Congo" = "Democratic Republic of the Congo") ∧
    (population_canonicalize "United States" = "United States of America" ∧
     population_canonicalize "Congo" = "Republic of the Congo" ∧
     population_canonicalize "Sao Tome & Principe" = "São Tomé and Príncipe" ∧
     population_canonicalize "DR Congo" = "Democratic Republic of the Congo" ∧
     population_canonicalize "Côte d\x27Ivoire" = "Ivory Coast" ∧
     population_canonicalize "Czech Republic (Czechia)" = "Czechia") ∧
    (happiness_canonicalize "United States" = "United States of America" ∧
     happiness_canonicalize "Congo Brazzaville" = "Republic of the Congo" ∧
     happiness_canonicalize "Congo Kinshasa" = "Democratic Republic of the Congo" ∧
     happiness_canonicalize "North Cyprus" = "Cyprus" ∧
     happiness_canonicalize "Turkiye" = "Turkey") ∧
    (qol_canonicalize "United States" = "United States of America" ∧
     qol_canonicalize "Sao Tome And Principe" = "São Tomé and Príncipe" ∧
     qol_canonicalize "Cape Verde" = "Cabo Verde" ∧
     qol_canonicalize "Trinidad And Tobago" = "Trinidad and Tobago" ∧
     qol_canonicalize "Czech Republic" = "Czechia" ∧
     qol_canonicalize "Hong Kong (China)" = "Hong Kong") ∧
    (legatum_canonicalize "United States" = "United States of America" ∧
     legatum_canonicalize "Congo" = "Republic of the Congo" ∧
     legatum_canonicalize "Democratic Republic of Congo" = "Democratic Republic of the Congo" ∧
     legatum_canonicalize "Czech Republic" = "Czechia" ∧
     legatum_canonicalize "Côte d\x27Ivoire" = "Ivory Coast" ∧
     legatum_canonicalize "Swaziland" = "Eswatini") ∧
    (worldometers_canonicalize "United States" = "United States of America" ∧
     worldometers_canonicalize "Czech Republic (Czechia)" = "Czechia" ∧
     worldometers_canonicalize "Sao Tome & Principe" = "São Tomé and Príncipe" ∧
     worldometers_canonicalize "Côte d\x27Ivoire" = "Ivory Coast" ∧
     worldometers_canonicalize "Congo" = "Republic of the Congo" ∧
     worldometers_canonicalize "DR Congo" = "Democratic Republic of the Congo") := by
  decide

/-- C6: every canonicalizer is a total function, and a raw name with no entry
in that source's mapping table is returned unchanged (exact string equality
only). -/
theorem C6_canonicalize_unmapped (name : String) :
    (name ∉ api_mapped_names → api_canonicalize name = name) ∧
    (name ∉ population_mapped_names → population_canonicalize name = name) ∧
    (name ∉ happiness_mapped_names → happiness_canonicalize name = name) ∧
    (name ∉ qol_mapped_names → qol_canonicalize name = name) ∧
    (name ∉ legatum_mapped_names → legatum_canonicalize name = name) ∧
    (name ∉ worldometers_mapped_names → worldometers_canonicalize name = name) := by
  refine ⟨fun h => ?_, fun h => ?_, fun h => ?_, fun h => ?_, fun h => ?_, fun h => ?_⟩ <;>
    simp_all [api_mapped_names, population_mapped_names, happiness_mapped_names,
      qol_mapped_names, legatum_mapped_names, worldometers_mapped_names,
      api_canonicalize, population_canonicalize, happiness_canonicalize,
      qol_canonicalize, legatum_canonicalize, worldometers_canonicalize]

/-- Witness for C6: the unmapped name `Atlantis` passes through every
canonicalizer unchanged. -/
theorem C6_canonicalize_unmapped_witness :
    api_canonicalize "Atlantis" = "Atlantis" ∧
    population_canonicalize "Atlantis" = "Atlantis" ∧
    happiness_canonicalize "Atlantis" = "Atlantis" ∧
    qol_canonicalize "Atlantis" = "Atlantis" ∧
    legatum_canonicalize "Atlantis" = "Atlantis" ∧
    worldometers_canonicalize "Atlantis" = "Atlantis" :=
  ⟨(C6_canonicalize_unmapped "Atlantis").1 (by decide),
   (C6_canonicalize_unmapped "Atlantis").2.1 (by decide),
   (C6_canonicalize_unmapped "Atlantis").2.2.1 (by decide),
   (C6_canonicalize_unmapped "Atlantis").2.2.2.1 (by decide),
   (C6_canonicalize_unmapped "Atlantis").2.2.2.2.1 (by decide),
   (C6_canonicalize_unmapped "Atlantis").2.2.2.2.2 (by decide)⟩

/-- C1 counterexample: on a run whose fetch fails, `main` of api_insert.py has
already dropped and recreated `countries_metadata` (empty) before fetching, so
the run ends with the destination table left created-empty — refuting the
claim that no destination table is left created-empty on such a run. Shown at
the concrete initial state in which the table did not exist. -/
theorem C1_fetch_failure_counterexample :
    fetch_countries_data (Except.error "network error") = [] ∧
    (api_main (Except.error "network error")
        { countries_metadata := none }).countries_metadata = some [] :=
  ⟨rfl, rfl⟩

/-- C1 (amended): if the fetch fails (network error or non-2xx status),
`fetch_countries_data` returns the empty list and `main` then aborts without
inserting any row; no partially-written table remains, but the
`countries_metadata` table — dropped and recreated before the fetch — is left
created-empty. -/
theorem C1_fetch_failure_amended (e : String) (s : ApiDbState) :
    fetch_countries_data (Except.error e) = [] ∧
    api_main (Except.error e) s = { countries_metadata := some [] } :=
  ⟨rfl, rfl⟩

/-- C2: if any one of the three required CSV files is absent, `main` of
csv_insert.py exits with the database state untouched — the three existence
checks all precede the first destructive table operation. -/
theorem C2_missing_file_no_drop (fs : CsvFs) (s : CsvDbState)
    (h : fs.world_population_data_csv = none ∨ fs.world_happiness_csv = none ∨
      fs.quality_of_life_csv = none) :
    csv_main fs s = s := by
  rcases h with h | h | h
  · simp [csv_main, h]
  · cases hp : fs.world_population_data_csv <;> simp [csv_main, hp, h]
  · cases hp : fs.world_population_data_csv <;>
      cases hh : fs.world_happiness_csv <;> simp [csv_main, hp, hh, h]

/-- Witness for C2: with the happiness CSV absent and a database that already
has content, the run leaves that content exactly as it was. -/
theorem C2_missing_file_no_drop_witness :
    csv_main
      { world_population_data_csv := some [], world_happiness_csv := none,
        quality_of_life_csv := some [] }
      { world_population := some [⟨"France", 1, 1, 1, 1, 1, 1⟩],
        world_happiness := none, quality_of_life := none } =
      { world_population := some [⟨"France", 1, 1, 1, 1, 1, 1⟩],
        world_happiness := none, quality_of_life := none } :=
  C2_missing_file_no_drop _ _ (Or.inr (Or.inl rfl))

/-- C3 counterexample: in the CSV ingestion path the numeric coercion is a
strict DuckDB `CAST`; on the malformed population cell `not a number` it
raises a conversion error that aborts the whole ingestion statement instead of
coercing the cell to null — refuting the claim that numeric coercion never
raises on any input string. -/
theorem C3_numeric_cleaning_counterexample :
    ingest_population_csv
      [{ Country := "France", Population2024 := "not a number", NetChange := "0",
         Density := "0", LandArea := "0", FertRate := "1.0", MedAge := "30" }] =
    Except.error "Conversion Error: Could not convert string not a number to INT64" := by
  rfl

/-- C3 (amended): in the web-scraping path (pandas `to_numeric` with coerce),
`1,234,567` coerces to 1234567, `12.3%` coerces to 12.3, a malformed string
coerces to null, and no input aborts a row (`process_worldometers_df` keeps
every row); in the CSV path thousands separators are stripped and valid
numerals cast (`1,234,567` to 1234567), but a malformed numeric string makes
the strict `CAST` raise, aborting the run. -/
theorem C3_numeric_cleaning_amended (rows : List GdpRawRow) :
    pd_to_numeric_coerce (strip_chars ['$', ','] "1,234,567") = some 1234567 ∧
    pd_to_numeric_coerce (strip_chars ['%', ','] "12.3%") = some (123 / 10) ∧
    pd_to_numeric_coerce "three" = none ∧
    duckdb_cast_bigint (sql_replace_comma_empty "1,234,567") = Except.ok 1234567 ∧
    duckdb_cast_bigint (sql_replace_comma_empty "three") =
      Except.error "Conversion Error: Could not convert string three to INT64" ∧
    (process_worldometers_df rows).length = rows.length := by
  refine ⟨?_, ?_, rfl, rfl, rfl, by simp [process_worldometers_df]⟩
  · rw [show pd_to_numeric_coerce (strip_chars ['$', ','] "1,234,567")
        = some (partsVal (1234567, 0)) from rfl]
    norm_num [partsVal]
  · rw [show pd_to_numeric_coerce (strip_chars ['%', ','] "12.3%")
        = some (partsVal (123, 1)) from rfl]
    norm_num [partsVal]

theorem ingest_happiness_row_keys (r : HapRawRow) (hr : HapRow)
    (h : ingest_happiness_row r = Except.ok hr) :
    hr.Country = happiness_canonicalize r.Country ∧
    duckdb_cast_integer r.Year = Except.ok hr.Year := by
  simp only [ingest_happiness_row, Bind.bind, Except.bind] at h
  cases hy : duckdb_cast_integer r.Year with
  | error e => rw [hy] at h; simp at h
  | ok y =>
    rw [hy] at h
    cases hi : duckdb_cast_double r.Index with
    | error e => rw [hi] at h; simp at h
    | ok idx =>
      rw [hi] at h
      simp only [Pure.pure, Except.pure, Except.ok.injEq] at h
      subst h
      refine ⟨rfl, ?_⟩
      simp [hy]

theorem ingest_happiness_csv_cons (r : HapRawRow) (rs : List HapRawRow) (out : List HapRow)
    (h : ingest_happiness_csv (r :: rs) = Except.ok out) :
    ∃ hd tl, ingest_happiness_row r = Except.ok hd ∧
      ingest_happiness_csv rs = Except.ok tl ∧ out = hd :: tl := by
  simp only [ingest_happiness_csv, Bind.bind, Except.bind] at h
  cases hr : ingest_happiness_row r with
  | error e => rw [hr] at h; simp at h
  | ok hd =>
    rw [hr] at h
    cases ht : ingest_happiness_csv rs with
    | error e => rw [ht] at h; simp at h
    | ok tl =>
      rw [ht] at h
      simp only [Pure.pure, Except.pure, Except.ok.injEq] at h
      exact ⟨hd, tl, rfl, rfl, h.symm⟩

theorem ingest_happiness_csv_mem (rows : List HapRawRow) (out : List HapRow)
    (h : ingest_happiness_csv rows = Except.ok out) :
    ∀ b ∈ out, ∃ rb ∈ rows, ingest_happiness_row rb = Except.ok b := by
  induction rows generalizing out with
  | nil =>
    simp only [ingest_happiness_csv, Except.ok.injEq] at h
    subst h
    intro b hb
    exact absurd hb (List.not_mem_nil b)
  | cons r rs ih =>
    obtain ⟨hd, tl, hhd, htl, rfl⟩ := ingest_happiness_csv_cons r rs out h
    intro b hb
    rcases List.mem_cons.mp hb with rfl | hbtl
    · exact ⟨r, List.mem_cons_self r rs, hhd⟩
    · obtain ⟨rb, hrb, hok⟩ := ih tl htl b hbtl
      exact ⟨rb, List.mem_cons_of_mem r hrb, hok⟩

theorem hapKeyCount_le_one (rows : List HapRow)
    (h : rows.Pairwise (fun a b => ¬(a.Country = b.Country ∧ a.Year = b.Year)))
    (c : String) (y : Int) : hapKeyCount rows c y ≤ 1 := by
  induction rows with
  | nil => simp [hapKeyCount]
  | cons a t ih =>
    rw [List.pairwise_cons] at h
    obtain ⟨ha, ht⟩ := h
    simp only [hapKeyCount, List.filter_cons]
    by_cases hk : (a.Country == c && a.Year == y) = true
    · have hnil : t.filter (fun r => r.Country == c && r.Year == y) = [] := by
        rw [List.filter_eq_nil_iff]
        intro b hb
        simp only [Bool.and_eq_true, beq_iff_eq] at hk ⊢
        rintro ⟨hbc, hby⟩
        exact ha b hb ⟨hk.1.trans hbc.symm, hk.2.trans hby.symm⟩
      simp [hk, hnil]
    · simp only [hk, Bool.false_eq_true, if_false]
      exact ih ht

theorem ingest_happiness_csv_pairwise_keys (rows : List HapRawRow) (out : List HapRow)
    (hok : ingest_happiness_csv rows = Except.ok out)
    (hkeys : rows.Pairwise (fun a b =>
      ¬(happiness_canonicalize a.Country = happiness_canonicalize b.Country ∧
        duckdb_cast_integer a.Year = duckdb_cast_integer b.Year))) :
    out.Pairwise (fun a b => ¬(a.Country = b.Country ∧ a.Year = b.Year)) := by
  induction rows generalizing out with
  | nil =>
    simp only [ingest_happiness_csv, Except.ok.injEq] at hok
    subst hok
    exact List.Pairwise.nil
  | cons r rs ih =>
    obtain ⟨hd, tl, hhd, htl, rfl⟩ := ingest_happiness_csv_cons r rs out hok
    rw [List.pairwise_cons] at hkeys
    obtain ⟨hr_rest, hrs⟩ := hkeys
    refine List.Pairwise.cons ?_ (ih tl htl hrs)
    intro b hb
    obtain ⟨rb, hrb, hokb⟩ := ingest_happiness_csv_mem rs tl htl b hb
    obtain ⟨hdc, hdy⟩ := ingest_happiness_row_keys r hd hhd
    obtain ⟨hbc, hby⟩ := ingest_happiness_row_keys rb b hokb
    rintro ⟨hc, hy⟩
    exact hr_rest rb hrb ⟨hdc ▸ hbc ▸ hc, by rw [hdy, hby, hy]⟩

/-- C7 counterexample: a source file with one row per raw (country, year) —
here `Cyprus` and `North Cyprus` in the same year — yields, after
canonicalization maps both names to `Cyprus`, two rows in `world_happiness`
with the same canonical (Country, Year) key, refuting the at-most-one-row
claim. -/
theorem C7_happiness_key_counterexample :
    (([{ Country := "Cyprus", Year := "2020", Index := "6.2" },
       { Country := "North Cyprus", Year := "2020", Index := "5.5" }] :
        List HapRawRow).map (fun r => (r.Country, r.Year))).Nodup ∧
    (ingest_happiness_csv
      [{ Country := "Cyprus", Year := "2020", Index := "6.2" },
       { Country := "North Cyprus", Year := "2020", Index := "5.5" }]).map
      (fun out => hapKeyCount out "Cyprus" 2020) = Except.ok 2 := by
  exact ⟨by decide, rfl⟩

/-- C7 (amended): after a successful happiness ingestion, the
`world_happiness` table contains at most one row per (canonical Country, Year)
pair, provided no two source rows map to the same canonical country and the
same year — raw-name distinctness alone is not enough, since distinct raw
names (e.g. `Cyprus` and `North Cyprus`) can canonicalize to the same
country. -/
theorem C7_happiness_key_amended (rows : List HapRawRow) (out : List HapRow)
    (hok : ingest_happiness_csv rows = Except.ok out)
    (hkeys : rows.Pairwise (fun a b =>
      ¬(happiness_canonicalize a.Country = happiness_canonicalize b.Country ∧
        duckdb_cast_integer a.Year = duckdb_cast_integer b.Year))) :
    ∀ c y, hapKeyCount out c y ≤ 1 := by
  intro c y
  exact hapKeyCount_le_one out (ingest_happiness_csv_pairwise_keys rows out hok hkeys) c y

/-- Witness for C7 (amended): two rows whose canonical keys differ (`France`
and `Turkiye`, the latter canonicalizing to `Turkey`) ingest to a table with
at most one row for the key (France, 2020). -/
theorem C7_happiness_key_amended_witness :
    hapKeyCount [HapRow.mk "France" 2020 (partsVal (6, 0)),
      HapRow.mk "Turkey" 2020 (partsVal (5, 0))] "France" 2020 ≤ 1 :=
  C7_happiness_key_amended
    [{ Country := "France", Year := "2020", Index := "6" },
     { Country := "Turkiye", Year := "2020", Index := "5" }]
    [HapRow.mk "France" 2020 (partsVal (6, 0)), HapRow.mk "Turkey" 2020 (partsVal (5, 0))]
    rfl (by decide) "France" 2020

/-- C8: `extract_legatum_table` returns the first candidate table whose text
contains `Rank`, falls back to the first candidate table when no text matches,
and returns `None` exactly when there are no candidate tables;
`extract_worldometers_table` returns the first table with id `example2`, falls
back to the first table on the page, and returns `None` exactly when the page
has no tables. -/
theorem C8_table_selection (legTables wmTables : List HtmlTable) :
    (extract_legatum_table legTables = none ↔ legTables = []) ∧
    ((∃ t ∈ legTables, hasRank t = true) →
      extract_legatum_table legTables = legTables.find? hasRank) ∧
    (legTables ≠ [] → (∀ t ∈ legTables, hasRank t = false) →
      extract_legatum_table legTables = legTables.head?) ∧
    (extract_worldometers_table wmTables = none ↔ wmTables = []) ∧
    ((∃ t ∈ wmTables, t.idAttr = some "example2") →
      extract_worldometers_table wmTables =
        wmTables.find? (fun t => t.idAttr == some "example2")) ∧
    (wmTables ≠ [] → (∀ t ∈ wmTables, t.idAttr ≠ some "example2") →
      extract_worldometers_table wmTables = wmTables.head?) := by
  refine ⟨?_, ?_, ?_, ?_, ?_, ?_⟩
  · cases legTables with
    | nil => simp [extract_legatum_table]
    | cons a l =>
      simp only [extract_legatum_table, List.isEmpty_cons, Bool.false_eq_true, if_false]
      cases h : (a :: l).find? hasRank <;> simp [h]
  · rintro ⟨t, ht, hr⟩
    have hne : legTables ≠ [] := by rintro rfl; exact absurd ht (List.not_mem_nil t)
    cases legTables with
    | nil => exact absurd rfl hne
    | cons a l =>
      simp only [extract_legatum_table, List.isEmpty_cons, Bool.false_eq_true, if_false]
      cases h : (a :: l).find? hasRank with
      | some u => simp
      | none =>
        rw [List.find?_eq_none] at h
        exact absurd hr (by simpa using h t ht)
  · intro hne hall
    cases legTables with
    | nil => exact absurd rfl hne
    | cons a l =>
      have h : (a :: l).find? hasRank = none :=
        List.find?_eq_none.mpr (fun t ht => by simp [hall t ht])
      simp [extract_legatum_table, h]
  · cases wmTables with
    | nil => simp [extract_worldometers_table]
    | cons a l =>
      simp only [extract_worldometers_table]
      cases h : (a :: l).find? (fun t => t.idAttr == some "example2") <;> simp [h]
  · rintro ⟨t, ht, hid⟩
    cases wmTables with
    | nil => exact absurd ht (List.not_mem_nil t)
    | cons a l =>
      simp only [extract_worldometers_table]
      cases h : (a :: l).find? (fun t => t.idAttr == some "example2") with
      | some u => simp
      | none =>
        rw [List.find?_eq_none] at h
        exact absurd hid (by simpa using h t ht)
  · intro hne hall
    cases wmTables with
    | nil => exact absurd rfl hne
    | cons a l =>
      have h : (a :: l).find? (fun t => t.idAttr == some "example2") = none :=
        List.find?_eq_none.mpr (fun t ht => by simp [hall t ht])
      simp [extract_worldometers_table, h]

/-- Witness for C8 at concrete pages: the second Legatum candidate is the
first to contain `Rank` and is selected; a keyword-free candidate list falls
back to its first table; a Worldometers page without the `example2` id falls
back to its first table. -/
theorem C8_table_selection_witness :
    extract_legatum_table
      [HtmlTable.mk "Country Score" none, HtmlTable.mk "Rank Country Score" none] =
      [HtmlTable.mk "Country Score" none, HtmlTable.mk "Rank Country Score" none].find? hasRank ∧
    extract_legatum_table [HtmlTable.mk "Country Score" none] =
      [HtmlTable.mk "Country Score" none].head? ∧
    extract_worldometers_table [HtmlTable.mk "GDP" (some "other")] =
      [HtmlTable.mk "GDP" (some "other")].head? :=
  ⟨(C8_table_selection
      [HtmlTable.mk "Country Score" none, HtmlTable.mk "Rank Country Score" none] []).2.1
      ⟨HtmlTable.mk "Rank Country Score" none, by decide, by decide⟩,
   (C8_table_selection [HtmlTable.mk "Country Score" none] []).2.2.1
      (by decide) (by decide),
   (C8_table_selection [] [HtmlTable.mk "GDP" (some "other")]).2.2.2.2.2
      (by decide) (by decide)⟩

/-- C9: extraction failure isolation in the webscraping `main`. The set of
ingest events for each destination table does not depend on the other source's
outcome, both scrape attempts always occur, and a successful source is
ingested whatever happened to the other one. -/
theorem C9_failure_isolation {Df : Type} (leg leg2 gdp gdp2 : Option Df) (df : Df) :
    ingest_events "gdp_table" (webscraping_main leg gdp) =
      ingest_events "gdp_table" (webscraping_main leg2 gdp) ∧
    ingest_events "legatum_prosperity" (webscraping_main leg gdp) =
      ingest_events "legatum_prosperity" (webscraping_main leg gdp2) ∧
    WsEvent.ingest "gdp_table" df ∈ webscraping_main leg (some df) ∧
    WsEvent.ingest "legatum_prosperity" df ∈ webscraping_main (some df) gdp ∧
    WsEvent.scrapeLegatum ∈ webscraping_main leg gdp ∧
    WsEvent.scrapeGdp ∈ webscraping_main leg gdp := by
  cases leg <;> cases leg2 <;> cases gdp <;> cases gdp2 <;>
    simp [webscraping_main, ingest_events]

/-- C10: `transform_data` is total and length-preserving, and substitutes the
documented defaults: `Unknown` for a missing common name, region or subregion,
the empty string for missing currencies or languages, and null for a missing
flag URL. -/
theorem C10_transform_total (data : List CountryJson) (c : CountryJson) :
    (transform_data data).length = data.length ∧
    (c.name.bind NameJson.common = none → (transform_country c).Country = "Unknown") ∧
    (c.region = none → (transform_country c).Region = "Unknown") ∧
    (c.subregion = none → (transform_country c).Subregion = "Unknown") ∧
    (c.currencies = none → (transform_country c).Currencies = "") ∧
    (c.languages = none → (transform_country c).Languages = "") ∧
    (c.flags.bind FlagsJson.png = none → (transform_country c).Flag_URL = none) := by
  refine ⟨by simp [transform_data], fun h => ?_, fun h => ?_, fun h => ?_,
    fun h => ?_, fun h => ?_, fun h => ?_⟩ <;>
    simp [transform_country, h, api_canonicalize, String.intercalate]

/-- Witness for C10: the country object with every field absent transforms to
the documented default row, and one input row yields one output row. -/
theorem C10_transform_total_witness :
    (transform_data [CountryJson.mk none none none none none none]).length = 1 ∧
    (transform_country (CountryJson.mk none none none none none none)).Country = "Unknown" ∧
    (transform_country (CountryJson.mk none none none none none none)).Region = "Unknown" ∧
    (transform_country (CountryJson.mk none none none none none none)).Subregion = "Unknown" ∧
    (transform_country (CountryJson.mk none none none none none none)).Currencies = "" ∧
    (transform_country (CountryJson.mk none none none none none none)).Languages = "" ∧
    (transform_country (CountryJson.mk none none none none none none)).Flag_URL = none :=
  ⟨(C10_transform_total [CountryJson.mk none none none none none none]
      (CountryJson.mk none none none none none none)).1,
   (C10_transform_total [] (CountryJson.mk none none none none none none)).2.1 rfl,
   (C10_transform_total [] (CountryJson.mk none none none none none none)).2.2.1 rfl,
   (C10_transform_total [] (CountryJson.mk none none none none none none)).2.2.2.1 rfl,
   (C10_transform_total [] (CountryJson.mk none none none none none none)).2.2.2.2.1 rfl,
   (C10_transform_total [] (CountryJson.mk none none none none none none)).2.2.2.2.2.1 rfl,
   (C10_transform_total [] (CountryJson.mk none none none none none none)).2.2.2.2.2.2 rfl⟩
